import Mathlib

/-!
Verification of the tiled multi-camera render synchronization engine
(`source/isaaclab/isaaclab/renderer/ovrtx_renderer.py` and
`source/isaaclab/isaaclab/renderer/newton_warp_renderer.py`).

Each definition below is a shallow embedding of the corresponding Python
function or code fragment; machine integers are modelled as `Nat`, float
payloads as `ℚ`, GPU buffers as total functions from index tuples to values,
and the per-frame orchestration as explicit state-passing functions.
-/

/-! ## Tile-grid addressing -/

/-- Number of tiles per side of the atlas, from
`self._num_tiles_per_side = math.ceil(math.sqrt(self._num_envs))`
(`ovrtx_renderer.py` line 172, `newton_warp_renderer.py` line 196).
For a natural number `n` the real `ceil (sqrt n)` is `Nat.sqrt n` when `n`
is a perfect square and `Nat.sqrt n + 1` otherwise, which is what this
executable definition computes (the float `math.sqrt` is exact on the
integer range used for environment counts). -/
def numTilesPerSide (n : Nat) : Nat :=
  if n ≤ Nat.sqrt n * Nat.sqrt n then Nat.sqrt n else Nat.sqrt n + 1

/-- Tile column of an environment: `tile_x = env_idx % self._num_tiles_per_side`
(`ovrtx_renderer.py` line 618). -/
def tileX (envId t : Nat) : Nat := envId % t

/-- Tile row of an environment: `tile_y = env_idx // self._num_tiles_per_side`
(`ovrtx_renderer.py` line 619). -/
def tileY (envId t : Nat) : Nat := envId / t

/-- Source column read by `_extract_tile_from_tiled_buffer_kernel`:
`src_x = tile_x * tile_width + x` (`ovrtx_renderer.py` line 115). -/
def srcX (envId t w x : Nat) : Nat := tileX envId t * w + x

/-- Source row read by `_extract_tile_from_tiled_buffer_kernel`:
`src_y = tile_y * tile_height + y` (`ovrtx_renderer.py` line 116). -/
def srcY (envId t h y : Nat) : Nat := tileY envId t * h + y

/-- Inverse lookup used by `_convert_raw_rgb_tiled`
(`newton_warp_renderer.py` lines 65-71):
`tile_x = x // image_width`, `tile_y = y // image_height`,
`camera_id = tile_y * num_tiles_x + tile_x`. -/
def cameraId (x y w h t : Nat) : Nat := (y / h) * t + (x / w)

/-- Claim C1: for every `N ≥ 1` and `env_id < N`, mapping `env_id` to tile
coordinates, then to an atlas pixel offset for any local pixel
`(lx < width, ly < height)`, and applying the inverse lookup
`(y / height) * tiles_per_side + (x / width)` recovers `env_id` exactly. -/
theorem tile_env_roundtrip (n envId w h lx ly : Nat)
    (hn : 1 ≤ n) (he : envId < n) (hx : lx < w) (hy : ly < h) :
    cameraId (srcX envId (numTilesPerSide n) w lx)
             (srcY envId (numTilesPerSide n) h ly)
             w h (numTilesPerSide n) = envId := by
  have hw : 0 < w := Nat.pos_of_ne_zero (by rintro rfl; exact Nat.not_lt_zero _ hx)
  have hh : 0 < h := Nat.pos_of_ne_zero (by rintro rfl; exact Nat.not_lt_zero _ hy)
  set t := numTilesPerSide n with ht
  have hxdiv : (tileX envId t * w + lx) / w = tileX envId t := by
    rw [Nat.mul_comm (tileX envId t) w, Nat.mul_add_div hw, Nat.div_eq_of_lt hx,
      Nat.add_zero]
  have hydiv : (tileY envId t * h + ly) / h = tileY envId t := by
    rw [Nat.mul_comm (tileY envId t) h, Nat.mul_add_div hh, Nat.div_eq_of_lt hy,
      Nat.add_zero]
  show (srcY envId t h ly) / h * t + (srcX envId t w lx) / w = envId
  unfold srcX srcY
  rw [hxdiv, hydiv]
  show envId / t * t + envId % t = envId
  rw [Nat.mul_comm]
  exact Nat.div_add_mod envId t

/-- Witness for Claim C1, at `N = 5` (3×3 tile grid), `env_id = 4`,
tile size 2×2, local pixel (1,1). -/
theorem tile_env_roundtrip_witness :
    1 ≤ 5 ∧ 4 < 5 ∧ 1 < 2 ∧
    cameraId (srcX 4 (numTilesPerSide 5) 2 1)
             (srcY 4 (numTilesPerSide 5) 2 1)
             2 2 (numTilesPerSide 5) = 4 :=
  ⟨by decide, by decide, by decide,
    tile_env_roundtrip 5 4 2 2 1 1 (by decide) (by decide) (by decide) (by decide)⟩

/-- Claim C6: for every `N ≥ 1` the tile count per side equals
`⌈√N⌉` and its square is at least `N`. -/
theorem numTilesPerSide_is_ceil_sqrt (n : Nat) (hn : 1 ≤ n) :
    numTilesPerSide n = ⌈Real.sqrt (n : ℝ)⌉₊ ∧ n ≤ numTilesPerSide n ^ 2 := by
  have hsq : n ≤ numTilesPerSide n ^ 2 := by
    unfold numTilesPerSide
    split
    · next hle => simpa [pow_two] using hle
    · next hlt =>
      have := Nat.lt_succ_sqrt n
      simpa [pow_two, Nat.succ_eq_add_one, Nat.mul_succ, Nat.succ_mul] using
        Nat.le_of_lt this
  refine ⟨?_, hsq⟩
  -- characterize: numTilesPerSide n is positive and (numTilesPerSide n - 1)^2 < n
  have hpos : 1 ≤ numTilesPerSide n := by
    unfold numTilesPerSide
    split
    · next hle =>
      by_contra hcon
      have h0 : Nat.sqrt n = 0 := by omega
      rw [h0] at hle
      omega
    · omega
  have hlow : (numTilesPerSide n - 1) ^ 2 < n := by
    unfold numTilesPerSide at hpos ⊢
    split
    · next hle =>
      have heq : n = Nat.sqrt n * Nat.sqrt n :=
        Nat.le_antisymm hle (Nat.sqrt_le n)
      have h1 : 1 ≤ Nat.sqrt n := by
        split at hpos <;> omega
      have : (Nat.sqrt n - 1) * (Nat.sqrt n - 1) < Nat.sqrt n * Nat.sqrt n :=
        Nat.mul_lt_mul_of_lt_of_le (by omega) (by omega) (by omega)
      rw [pow_two]
      omega
    · next hlt =>
      have : Nat.sqrt n * Nat.sqrt n < n := Nat.lt_of_not_le hlt
      rw [pow_two]
      simpa using this
  -- now transfer to the real ceiling
  symm
  rw [Nat.ceil_eq_iff (by omega)]
  constructor
  · -- (t - 1 : ℝ) < √n  ↔  (t-1)^2 < n
    have hcast : ((numTilesPerSide n - 1 : Nat) : ℝ) ^ 2 < (n : ℝ) := by
      exact_mod_cast hlow
    have h0 : (0 : ℝ) ≤ (n : ℝ) := by positivity
    rw [show ((numTilesPerSide n - 1 : Nat) : ℝ) = ((numTilesPerSide n - 1 : Nat) : ℝ) from rfl]
    rw [← Real.sqrt_sq (by positivity : (0:ℝ) ≤ ((numTilesPerSide n - 1 : Nat) : ℝ))]
    exact Real.sqrt_lt_sqrt (by positivity) (by rw [sq] at hcast ⊢; exact_mod_cast hcast)
  · -- √n ≤ t  ↔  n ≤ t^2
    have hcast : (n : ℝ) ≤ ((numTilesPerSide n : Nat) : ℝ) ^ 2 := by exact_mod_cast hsq
    calc Real.sqrt (n : ℝ) ≤ Real.sqrt (((numTilesPerSide n : Nat) : ℝ) ^ 2) :=
          Real.sqrt_le_sqrt hcast
      _ = ((numTilesPerSide n : Nat) : ℝ) := by
          rw [Real.sqrt_sq (by positivity)]

/-- Witness for Claim C6 at `N = 5`: three tiles per side and `5 ≤ 3²`. -/
theorem numTilesPerSide_is_ceil_sqrt_witness :
    1 ≤ 5 ∧ (numTilesPerSide 5 = ⌈Real.sqrt ((5 : Nat) : ℝ)⌉₊ ∧ 5 ≤ numTilesPerSide 5 ^ 2) :=
  ⟨by decide, numTilesPerSide_is_ceil_sqrt 5 (by decide)⟩

/-! ## Color-channel decoding -/

/-- Channel decoding from `_convert_raw_rgb_tiled`
(`newton_warp_renderer.py` lines 85-88): each output channel is obtained from
the packed 32-bit pixel by a fixed shift and mask,
`(packed_color >> (8 * c)) & 0xFF` with the low byte as channel 0. -/
def unpackChannel (packed : Nat) : Fin 4 → Nat
  | 0 => (packed >>> 0) &&& 0xFF
  | 1 => (packed >>> 8) &&& 0xFF
  | 2 => (packed >>> 16) &&& 0xFF
  | 3 => (packed >>> 24) &&& 0xFF

/-- Claim C8: the channel decoding assigns channel `c` the value
`(v >>> (8 * c)) &&& 0xFF`, equivalently byte `c` of the packed value
(`v / 2^(8c) % 256`); in particular packing bytes `b0..b3` little-endian and
decoding recovers each byte, so the low byte is channel 0. -/
theorem unpackChannel_shift_mask :
    (∀ (v : Nat) (c : Fin 4), unpackChannel v c = (v >>> (8 * c.val)) &&& 0xFF) ∧
    (∀ (v : Nat) (c : Fin 4), unpackChannel v c = v / 2 ^ (8 * c.val) % 256) ∧
    (∀ b0 b1 b2 b3 : Nat, b0 < 256 → b1 < 256 → b2 < 256 → b3 < 256 →
      unpackChannel (b0 + 256 * b1 + 65536 * b2 + 16777216 * b3) 0 = b0 ∧
      unpackChannel (b0 + 256 * b1 + 65536 * b2 + 16777216 * b3) 1 = b1 ∧
      unpackChannel (b0 + 256 * b1 + 65536 * b2 + 16777216 * b3) 2 = b2 ∧
      unpackChannel (b0 + 256 * b1 + 65536 * b2 + 16777216 * b3) 3 = b3) := by
  have hbyte : ∀ (v : Nat) (c : Fin 4), unpackChannel v c = v / 2 ^ (8 * c.val) % 256 := by
    intro v c
    have hmask : ∀ w : Nat, w &&& 0xFF = w % 256 := by
      intro w
      have := Nat.and_pow_two_sub_one_eq_mod w 8
      norm_num at this
      exact this
    fin_cases c <;>
      simp [unpackChannel, hmask, Nat.shiftRight_eq_div_pow]
  refine ⟨?_, hbyte, ?_⟩
  · intro v c
    fin_cases c <;> rfl
  · intro b0 b1 b2 b3 h0 h1 h2 h3
    have hmask : ∀ w : Nat, w &&& 0xFF = w % 256 := by
      intro w
      have := Nat.and_pow_two_sub_one_eq_mod w 8
      norm_num at this
      exact this
    have hsimp : ∀ v : Nat,
        unpackChannel v 0 = v % 256 ∧ unpackChannel v 1 = v / 256 % 256 ∧
        unpackChannel v 2 = v / 65536 % 256 ∧ unpackChannel v 3 = v / 16777216 % 256 := by
      intro v
      refine ⟨?_, ?_, ?_, ?_⟩ <;>
        simp [unpackChannel, Nat.shiftRight_eq_div_pow, hmask]
    obtain ⟨e0, e1, e2, e3⟩ := hsimp (b0 + 256 * b1 + 65536 * b2 + 16777216 * b3)
    refine ⟨?_, ?_, ?_, ?_⟩ <;> simp only [e0, e1, e2, e3] <;> omega

/-- Witness for Claim C8 at bytes `(1, 2, 3, 4)`, packed value `0x04030201`. -/
theorem unpackChannel_shift_mask_witness :
    unpackChannel (1 + 256 * 2 + 65536 * 3 + 16777216 * 4) 0 = 1 ∧
    unpackChannel (1 + 256 * 2 + 65536 * 3 + 16777216 * 4) 1 = 2 ∧
    unpackChannel (1 + 256 * 2 + 65536 * 3 + 16777216 * 4) 2 = 3 ∧
    unpackChannel (1 + 256 * 2 + 65536 * 3 + 16777216 * 4) 3 = 4 :=
  unpackChannel_shift_mask.2.2 1 2 3 4 (by decide) (by decide) (by decide) (by decide)

/-! ## Body-index table construction -/

/-- Boolean test that `needle` occurs as a leading segment of `hay`. -/
def leadsWith : List Char → List Char → Bool
  | [], _ => true
  | _ :: _, [] => false
  | a :: as, b :: bs => a == b && leadsWith as bs

/-- Boolean substring containment on character lists, embedding the Python
`needle in haystack` membership test used by `_setup_object_bindings`. -/
def hasSub (needle : List Char) : List Char → Bool
  | [] => leadsWith needle []
  | c :: t => leadsWith needle (c :: t) || hasSub needle t

/-- Substring containment on strings. -/
def containsStr (needle hay : String) : Bool := hasSub needle.toList hay.toList

/-- Body filter from `OVRTXRenderer._setup_object_bindings`
(`ovrtx_renderer.py` line 337): a body is bound exactly when
`"/World/envs/" in path and "Camera" not in path and "GroundPlane" not in path`. -/
def includeBody (path : String) : Bool :=
  containsStr "/World/envs/" path && !containsStr "Camera" path &&
    !containsStr "GroundPlane" path

/-- BodyIndexTable from `_setup_object_bindings` (`ovrtx_renderer.py`
lines 333-339): slot `i` of the object binding is backed by the `i`-th kept
physics body index (`newton_indices`). -/
def bodyIndexTable (paths : List String) : List Nat :=
  ((paths.enum).filter (fun p => includeBody p.2)).map (fun p => p.1)

/-- Counterexample to Claim C3: on the body path list of the claim, whose
paths start with `/envs/` rather than `/World/envs/`, the filter keeps no body
at all, so the table is empty rather than mapping indices 0 and 3. -/
theorem bodyIndexTable_envs_paths_empty :
    bodyIndexTable ["/envs/env_0/Robot/link0", "/envs/env_0/Camera",
        "/envs/env_0/GroundPlane", "/envs/env_0/object"] = [] ∧
    bodyIndexTable ["/envs/env_0/Robot/link0", "/envs/env_0/Camera",
        "/envs/env_0/GroundPlane", "/envs/env_0/object"] ≠ [0, 3] := by
  constructor <;> decide

/-- Claim C3 (amended): the table includes exactly the bodies whose path
contains `"/World/envs/"` and contains neither `"Camera"` nor `"GroundPlane"`;
for the scenario paths placed under `/World/envs/env_0/` the table maps
physics body indices 0 and 3 to binding slots 0 and 1. -/
theorem bodyIndexTable_world_envs_scenario :
    bodyIndexTable ["/World/envs/env_0/Robot/link0", "/World/envs/env_0/Camera",
        "/World/envs/env_0/GroundPlane", "/World/envs/env_0/object"] = [0, 3] ∧
    includeBody "/World/envs/env_0/Robot/link0" = true ∧
    includeBody "/World/envs/env_0/Camera" = false ∧
    includeBody "/World/envs/env_0/GroundPlane" = false ∧
    includeBody "/World/envs/env_0/object" = true := by
  refine ⟨?_, ?_, ?_, ?_, ?_⟩ <;> decide

/-! ## TransformBuilder -/

/-- Rotation entry `r00 = 1.0 - 2.0 * (qy * qy + qz * qz)` from
`_create_camera_transforms_kernel` (`ovrtx_renderer.py` line 65). -/
def r00 (qx qy qz qw : ℚ) : ℚ := 1 - 2 * (qy * qy + qz * qz)

/-- Rotation entry `r01 = 2.0 * (qx * qy - qw * qz)` (line 66). -/
def r01 (qx qy qz qw : ℚ) : ℚ := 2 * (qx * qy - qw * qz)

/-- Rotation entry `r02 = 2.0 * (qx * qz + qw * qy)` (line 67). -/
def r02 (qx qy qz qw : ℚ) : ℚ := 2 * (qx * qz + qw * qy)

/-- Rotation entry `r10 = 2.0 * (qx * qy + qw * qz)` (line 70). -/
def r10 (qx qy qz qw : ℚ) : ℚ := 2 * (qx * qy + qw * qz)

/-- Rotation entry `r11 = 1.0 - 2.0 * (qx * qx + qz * qz)` (line 71). -/
def r11 (qx qy qz qw : ℚ) : ℚ := 1 - 2 * (qx * qx + qz * qz)

/-- Rotation entry `r12 = 2.0 * (qy * qz - qw * qx)` (line 72). -/
def r12 (qx qy qz qw : ℚ) : ℚ := 2 * (qy * qz - qw * qx)

/-- Rotation entry `r20 = 2.0 * (qx * qz - qw * qy)` (line 75). -/
def r20 (qx qy qz qw : ℚ) : ℚ := 2 * (qx * qz - qw * qy)

/-- Rotation entry `r21 = 2.0 * (qy * qz + qw * qx)` (line 76). -/
def r21 (qx qy qz qw : ℚ) : ℚ := 2 * (qy * qz + qw * qx)

/-- Rotation entry `r22 = 1.0 - 2.0 * (qx * qx + qy * qy)` (line 77). -/
def r22 (qx qy qz qw : ℚ) : ℚ := 1 - 2 * (qx * qx + qy * qy)

/-- Layout B transform built by `_create_camera_transforms_kernel`
(`ovrtx_renderer.py` lines 85-90): the 4×4 matrix is stored column-major for
OVRTX, so the rotation block is transposed (columns become rows) and the
translation occupies the last row. -/
def ovrtxCameraTransform (qx qy qz qw px py pz : ℚ) : Matrix (Fin 4) (Fin 4) ℚ :=
  !![r00 qx qy qz qw, r10 qx qy qz qw, r20 qx qy qz qw, 0;
     r01 qx qy qz qw, r11 qx qy qz qw, r21 qx qy qz qw, 0;
     r02 qx qy qz qw, r12 qx qy qz qw, r22 qx qy qz qw, 0;
     px,              py,              pz,              1]

/-- Modelled from the spec: Layout A of §4.1 — rows 0-2 are the rotation rows
`r00 r01 r02 / r10 r11 r12 / r20 r21 r22`, the translation is in row 3 and
column 3 is `(0,0,0,1)`. The Newton backend's kernel
(`newton_warp_renderer.py` lines 24-38) stores position and quaternion as a
`wp.transformf` pair and delegates the row-major 4×4 construction to the
external warp library, so that construction is not in the source tree. -/
def layoutACameraTransform (qx qy qz qw px py pz : ℚ) : Matrix (Fin 4) (Fin 4) ℚ :=
  !![r00 qx qy qz qw, r01 qx qy qz qw, r02 qx qy qz qw, 0;
     r10 qx qy qz qw, r11 qx qy qz qw, r12 qx qy qz qw, 0;
     r20 qx qy qz qw, r21 qx qy qz qw, r22 qx qy qz qw, 0;
     px,              py,              pz,              1]

/-- Claim C5: for every position `p`, the transform built from the identity
quaternion `(0,0,0,1)` has identity rotation block and translation `p`, under
both Layout B (OVRTX kernel) and Layout A (row-major). -/
theorem identity_quat_transform (px py pz : ℚ) :
    ovrtxCameraTransform 0 0 0 1 px py pz =
      !![1, 0, 0, 0; 0, 1, 0, 0; 0, 0, 1, 0; px, py, pz, 1] ∧
    layoutACameraTransform 0 0 0 1 px py pz =
      !![1, 0, 0, 0; 0, 1, 0, 0; 0, 0, 1, 0; px, py, pz, 1] := by
  constructor <;>
    · ext i j
      fin_cases i <;> fin_cases j <;>
        norm_num [ovrtxCameraTransform, layoutACameraTransform,
          r00, r01, r02, r10, r11, r12, r20, r21, r22]

/-! ## OVRTX render cycle (`OVRTXRenderer.render`) -/

/-- Per-environment RGBA output buffer, indexed env, row, column, channel,
modelling `self._output_data_buffers["rgba"]` of shape
`(num_envs, height, width, 4)` as a total function. -/
def Buf4 : Type := Nat → Nat → Nat → Fin 4 → Nat

/-- Per-environment depth output buffer, indexed env, row, column, modelling
`self._output_data_buffers["depth"]` of shape `(num_envs, height, width, 1)`. -/
def Buf1 : Type := Nat → Nat → Nat → ℚ

/-- Tiled atlas returned by the external render step: one combined LdrColor
image with its own dimensions (whatever the backend produced) and RGBA data. -/
structure Atlas where
  height : Nat
  width : Nat
  data : Nat → Nat → Fin 4 → Nat

/-- Outcome of the external `self._renderer.step(...)` call inside the
`try` block of `render()` (`ovrtx_renderer.py` lines 586-651): either the
backend raises, or it returns a product whose first frame holds the tiled
LdrColor atlas. -/
inductive StepOutcome where
  | raises
  | returns (atlas : Atlas)

/-- Mutable state of `OVRTXRenderer` relevant to `render()`: sizes fixed at
construction, the `_initialized_scene` flag, the diagnostic frame counter and
the output buffers (`rgb` is a view of `rgba` and is not stored separately,
see `_initialize_output`, `ovrtx_renderer.py` lines 399-407). -/
structure OvrtxState where
  numEnvs : Nat
  width : Nat
  height : Nat
  sceneReady : Bool
  frameCounter : Nat
  rgba : Buf4
  depth : Buf1

/-- View of the first three channels of the rgba buffer: the `rgb` output of
`self._output_data_buffers["rgba"][:, :, :, :3]`. -/
def rgbOf (st : OvrtxState) : Nat → Nat → Nat → Fin 3 → Nat :=
  fun e y x c => st.rgba e y x c.castSucc

/-- Per-environment tile extraction loop of `render()`
(`ovrtx_renderer.py` lines 616-634): for every environment below `numEnvs`
and every destination pixel `(y, x)` inside the `height × width` tile, the
kernel launch overwrites `rgba[env, y, x, c]` with the atlas sample at
`(tile_y*height + y, tile_x*width + x)`; all other entries keep their old
value. No comparison against the atlas dimensions appears anywhere on this
path, so the source coordinates are used whether or not they are in bounds. -/
def unpackAtlas (numEnvs t w h : Nat) (atlas : Atlas) (old : Buf4) : Buf4 :=
  fun e y x c =>
    if e < numEnvs ∧ y < h ∧ x < w then
      atlas.data (srcY e t h y) (srcX e t w x) c
    else old e y x c

/-- Shallow embedding of `OVRTXRenderer.render` (`ovrtx_renderer.py`
lines 525-651) at the granularity of the claims: the only raise reaching the
caller is the `RuntimeError` for an uninitialized scene (line 535); the frame
counter is incremented before the `try` block; the external step and the
unpack run inside `try ... except Exception`, whose handler only logs, so a
backend raise leaves every output buffer untouched and returns normally.
Camera/object transform writes touch renderer bindings, never the output
buffers, and are omitted. Depth extraction is absent from the source (the
depth branch is commented out), so `depth` is never written. -/
def ovrtxRender (st : OvrtxState) (res : StepOutcome) : Except String OvrtxState :=
  if st.sceneReady = false then
    Except.error "Scene not initialized"
  else
    match res with
    | .raises => Except.ok { st with frameCounter := st.frameCounter + 1 }
    | .returns atlas =>
        Except.ok { st with
          frameCounter := st.frameCounter + 1
          rgba := unpackAtlas st.numEnvs (numTilesPerSide st.numEnvs)
            st.width st.height atlas st.rgba }

/-- Boolean success test on the render result. -/
def renderOk (r : Except String OvrtxState) : Bool :=
  match r with
  | .ok _ => true
  | .error _ => false

/-- Counterexample to Claim C2: one environment with 2×2 tiles and a 1×1
atlas (dimensions different from `tiles_per_side*width × tiles_per_side*height
= 2×2`). The unpack step does not fail: `render()` returns normally, although
the extraction reads source row `srcY 0 1 2 1 = 1`, beyond the atlas height
of 1 — an out-of-bounds read, not a fatal configuration error. -/
theorem mismatched_atlas_render_succeeds :
    renderOk (ovrtxRender
      ⟨1, 2, 2, true, 0, fun _ _ _ _ => 0, fun _ _ _ => 0⟩
      (.returns ⟨1, 1, fun _ _ _ => 7⟩)) = true ∧
    (1 : Nat) ≠ numTilesPerSide 1 * 2 ∧
    (⟨1, 1, fun _ _ _ => 7⟩ : Atlas).height ≤ srcY 0 (numTilesPerSide 1) 2 1 := by
  refine ⟨rfl, by decide, by decide⟩

/-- Claim C2 (amended): the unpack step performs no atlas-dimension check at
all — `render()` raises a fatal error exactly when the scene is not yet
bound, and with any atlas (mismatched dimensions included) it returns
normally, overwriting `rgba` from source coordinates computed without regard
to the atlas bounds. -/
theorem ovrtx_render_no_dims_check (st : OvrtxState) (res : StepOutcome) :
    (renderOk (ovrtxRender st res) = st.sceneReady) ∧
    (st.sceneReady = true → ∀ atlas : Atlas,
      ovrtxRender st (.returns atlas) = Except.ok { st with
        frameCounter := st.frameCounter + 1
        rgba := unpackAtlas st.numEnvs (numTilesPerSide st.numEnvs)
          st.width st.height atlas st.rgba }) := by
  constructor
  · cases hs : st.sceneReady <;> cases res <;> simp [ovrtxRender, renderOk, hs]
  · intro hs atlas
    simp [ovrtxRender, hs]

/-- Witness for Claim C2 (amended) at a concrete initialized state and a
mismatched 1×1 atlas. -/
theorem ovrtx_render_no_dims_check_witness :
    (renderOk (ovrtxRender
        ⟨1, 2, 2, true, 0, fun _ _ _ _ => 0, fun _ _ _ => 0⟩ .raises) =
      (⟨1, 2, 2, true, 0, fun _ _ _ _ => 0, fun _ _ _ => 0⟩ : OvrtxState).sceneReady) ∧
    ((⟨1, 2, 2, true, 0, fun _ _ _ _ => 0, fun _ _ _ => 0⟩ : OvrtxState).sceneReady = true →
      ∀ atlas : Atlas,
        ovrtxRender ⟨1, 2, 2, true, 0, fun _ _ _ _ => 0, fun _ _ _ => 0⟩ (.returns atlas) =
          Except.ok { (⟨1, 2, 2, true, 0, fun _ _ _ _ => 0, fun _ _ _ => 0⟩ : OvrtxState) with
            frameCounter := 0 + 1
            rgba := unpackAtlas 1 (numTilesPerSide 1) 2 2 atlas
              (fun _ _ _ _ => 0) }) :=
  ovrtx_render_no_dims_check ⟨1, 2, 2, true, 0, fun _ _ _ _ => 0, fun _ _ _ => 0⟩ .raises

/-- Claim C4: if the external render step raises, `render()` catches the
exception (returns normally) and every output buffer — `rgba`, the `rgb`
view and `depth` — holds exactly its previous content; a subsequent
successful call overwrites `rgba` (and hence the `rgb` view) with the new
frame's atlas samples at the tile offsets of each environment. -/
theorem render_failure_keeps_buffers (st : OvrtxState) (atlas : Atlas)
    (hs : st.sceneReady = true) :
    (ovrtxRender st .raises = Except.ok { st with frameCounter := st.frameCounter + 1 }) ∧
    ((ovrtxRender st .raises).toOption.map OvrtxState.rgba = some st.rgba) ∧
    ((ovrtxRender st .raises).toOption.map rgbOf = some (rgbOf st)) ∧
    ((ovrtxRender st .raises).toOption.map OvrtxState.depth = some st.depth) ∧
    (ovrtxRender { st with frameCounter := st.frameCounter + 1 } (.returns atlas) =
      Except.ok { st with
        frameCounter := st.frameCounter + 2
        rgba := unpackAtlas st.numEnvs (numTilesPerSide st.numEnvs)
          st.width st.height atlas st.rgba }) ∧
    (∀ e y x c, e < st.numEnvs → y < st.height → x < st.width →
      unpackAtlas st.numEnvs (numTilesPerSide st.numEnvs)
          st.width st.height atlas st.rgba e y x c =
        atlas.data (srcY e (numTilesPerSide st.numEnvs) st.height y)
                   (srcX e (numTilesPerSide st.numEnvs) st.width x) c) := by
  have h1 : ovrtxRender st .raises =
      Except.ok { st with frameCounter := st.frameCounter + 1 } := by
    simp [ovrtxRender, hs]
  refine ⟨h1, ?_, ?_, ?_, ?_, ?_⟩
  · rw [h1]; rfl
  · rw [h1]; rfl
  · rw [h1]; rfl
  · simp [ovrtxRender, hs]
  · intro e y x c he hy hx
    simp [unpackAtlas, he, hy, hx]

/-- Witness for Claim C4 at a concrete one-environment state and a 2×2 atlas. -/
theorem render_failure_keeps_buffers_witness :
    (ovrtxRender ⟨1, 2, 2, true, 5, fun _ _ _ _ => 3, fun _ _ _ => 0⟩ .raises =
      Except.ok { (⟨1, 2, 2, true, 5, fun _ _ _ _ => 3, fun _ _ _ => 0⟩ : OvrtxState) with
        frameCounter := 5 + 1 }) ∧
    ((ovrtxRender ⟨1, 2, 2, true, 5, fun _ _ _ _ => 3, fun _ _ _ => 0⟩ .raises).toOption.map
        OvrtxState.rgba = some (fun _ _ _ _ => 3)) ∧
    ((ovrtxRender ⟨1, 2, 2, true, 5, fun _ _ _ _ => 3, fun _ _ _ => 0⟩ .raises).toOption.map
        rgbOf = some (rgbOf ⟨1, 2, 2, true, 5, fun _ _ _ _ => 3, fun _ _ _ => 0⟩)) ∧
    ((ovrtxRender ⟨1, 2, 2, true, 5, fun _ _ _ _ => 3, fun _ _ _ => 0⟩ .raises).toOption.map
        OvrtxState.depth = some (fun _ _ _ => 0)) ∧
    (ovrtxRender
        { (⟨1, 2, 2, true, 5, fun _ _ _ _ => 3, fun _ _ _ => 0⟩ : OvrtxState) with
          frameCounter := 5 + 1 } (.returns ⟨2, 2, fun _ _ _ => 9⟩) =
      Except.ok { (⟨1, 2, 2, true, 5, fun _ _ _ _ => 3, fun _ _ _ => 0⟩ : OvrtxState) with
        frameCounter := 5 + 2
        rgba := unpackAtlas 1 (numTilesPerSide 1) 2 2 ⟨2, 2, fun _ _ _ => 9⟩
          (fun _ _ _ _ => 3) }) ∧
    (∀ e y x c, e < 1 → y < 2 → x < 2 →
      unpackAtlas 1 (numTilesPerSide 1) 2 2 ⟨2, 2, fun _ _ _ => 9⟩
          (fun _ _ _ _ => 3) e y x c =
        (⟨2, 2, fun _ _ _ => 9⟩ : Atlas).data (srcY e (numTilesPerSide 1) 2 y)
          (srcX e (numTilesPerSide 1) 2 x) c) :=
  render_failure_keeps_buffers
    ⟨1, 2, 2, true, 5, fun _ _ _ _ => 3, fun _ _ _ => 0⟩ ⟨2, 2, fun _ _ _ => 9⟩ rfl

/-! ## RGB view aliasing over the RGBA buffer -/

/-- Raw contents of one allocated device array: env, row, column, channel to
byte value. -/
def BufData : Type := Nat → Nat → Nat → Nat → Nat

/-- A warp array reference as used for the output buffers: the identity of
the underlying allocation, plus the channel bound left by slicing
(`[:, :, :, :3]` keeps the allocation and restricts the bound to 3). -/
structure BufView where
  base : Nat
  channels : Nat

/-- Heap of output-buffer allocations together with the `rgba` and `rgb`
entries of `self._output_data_buffers`. -/
structure BufferStore where
  heap : Nat → BufData
  nextId : Nat
  rgba : BufView
  rgb : BufView

/-- Output-buffer setup from `_initialize_output` (`ovrtx_renderer.py`
lines 399-403, `newton_warp_renderer.py` lines 202-206):
`rgba = wp.zeros((num_envs, height, width, 4), ...)` allocates one array and
`rgb = rgba[:, :, :, :3]` is a slice of that same allocation — no second
allocation for `rgb`. -/
def initialOutputStore : BufferStore :=
  { heap := fun _ => fun _ _ _ _ => 0
    nextId := 1
    rgba := ⟨0, 4⟩
    rgb := ⟨0, 3⟩ }

/-- Operations that touch the output buffers after setup. -/
inductive BufOp where
  /-- Arbitrary values written into the rgba buffer (the tile-extraction
  kernel of the OVRTX backend writes through the rgba reference). -/
  | writeRgba (f : BufData)
  /-- The per-frame reassignment in `NewtonWarpRenderer.render`
  (`newton_warp_renderer.py` lines 313-319): `rgba` is rebound to a fresh
  4-channel view over the raw sensor output and `rgb` is immediately rebound
  to `rgba[:, :, :, :3]`, a slice of that same allocation. -/
  | newtonFrame (raw : BufData)

/-- One buffer operation, as the source performs it. -/
def stepBuf (s : BufferStore) : BufOp → BufferStore
  | .writeRgba f =>
      { s with heap := fun b => if b = s.rgba.base then f else s.heap b }
  | .newtonFrame raw =>
      { heap := fun b => if b = s.nextId then raw else s.heap b
        nextId := s.nextId + 1
        rgba := ⟨s.nextId, 4⟩
        rgb := ⟨s.nextId, 3⟩ }

/-- Reading through a buffer reference goes to its underlying allocation. -/
def readBuf (s : BufferStore) (v : BufView) (e y x c : Nat) : Nat :=
  s.heap v.base e y x c

/-- Replay of any operation sequence from the initial output setup. -/
def runBuf (ops : List BufOp) : BufferStore :=
  ops.foldl stepBuf initialOutputStore

/-- Aliasing invariant: `rgb` shares `rgba`'s allocation and exposes 3 of its
4 channels. -/
def rgbAliased (s : BufferStore) : Prop :=
  s.rgb.base = s.rgba.base ∧ s.rgb.channels = 3 ∧ s.rgba.channels = 4

theorem stepBuf_preserves_aliased (s : BufferStore) (op : BufOp)
    (h : rgbAliased s) : rgbAliased (stepBuf s op) := by
  cases op with
  | writeRgba f => exact h
  | newtonFrame raw => simp [stepBuf, rgbAliased]

theorem runBuf_aliased_aux (ops : List BufOp) :
    ∀ s : BufferStore, rgbAliased s → rgbAliased (ops.foldl stepBuf s) := by
  induction ops with
  | nil => intro s h; exact h
  | cons op rest ih =>
      intro s h
      exact ih (stepBuf s op) (stepBuf_preserves_aliased s op h)

/-- Claim C7: after output initialization and any sequence of buffer
operations (writes into rgba, per-frame rebinding in the Newton backend),
`rgb` is still a non-owning 3-channel view over `rgba`'s allocation (never
independently allocated), and reading `rgb` after writing arbitrary values
into `rgba` yields exactly those values on the first 3 channels. -/
theorem rgb_view_aliases_rgba (ops : List BufOp) :
    rgbAliased (runBuf ops) ∧
    (∀ (f : BufData) (e y x : Nat) (c : Fin 3),
      readBuf (stepBuf (runBuf ops) (.writeRgba f))
        (stepBuf (runBuf ops) (.writeRgba f)).rgb e y x c.val = f e y x c.val) := by
  have hinv : rgbAliased (runBuf ops) :=
    runBuf_aliased_aux ops initialOutputStore (by simp [initialOutputStore, rgbAliased])
  refine ⟨hinv, ?_⟩
  intro f e y x c
  simp [readBuf, stepBuf, hinv.1]

/-! ## Close lifecycle (`OVRTXRenderer.close`) -/

/-- Resource-holding fields of `OVRTXRenderer` touched (or not) by `close()`:
presence of the camera binding, the object binding, the renderer handle, the
loaded USD handles, the render product paths and the `_initialized_scene`
flag. -/
structure OvrtxResources where
  cameraBinding : Bool
  objectBinding : Bool
  rendererHandle : Bool
  usdHandles : List Nat
  renderProductPaths : List Nat
  sceneReady : Bool
  deriving DecidableEq

/-- Shallow embedding of `OVRTXRenderer.close` (`ovrtx_renderer.py`
lines 835-859). The method is total — every unbind/remove error is caught
inside and only logged. It sets `_camera_binding = None`, removes all USD
handles and sets `_renderer = None`, clears `_render_product_paths` and
resets `_initialized_scene`; it never touches `_object_binding`. -/
def ovrtxClose (s : OvrtxResources) : OvrtxResources :=
  { cameraBinding := false
    objectBinding := s.objectBinding
    rendererHandle := false
    usdHandles := []
    renderProductPaths := []
    sceneReady := false }

/-- Closed state as Claim C9 describes it: renderer handle released, all
bindings (camera and object) released, scene content removed, scene no
longer marked initialized. This definition follows the claim's words, to be
compared with what `ovrtxClose` actually establishes. -/
def isClosedSpec (s : OvrtxResources) : Bool :=
  !s.rendererHandle && !s.cameraBinding && !s.objectBinding &&
    s.usdHandles.isEmpty && s.renderProductPaths.isEmpty && !s.sceneReady

/-- Counterexample to Claim C9: starting from a bound scene that holds an
object binding, `close()` — once or twice — leaves `_object_binding` set, so
the orchestrator is not in the claim's Closed state (bindings released)
after either call. -/
theorem close_leaves_object_binding :
    (ovrtxClose ⟨true, true, true, [0], [0], true⟩).objectBinding = true ∧
    isClosedSpec (ovrtxClose ⟨true, true, true, [0], [0], true⟩) = false ∧
    isClosedSpec (ovrtxClose (ovrtxClose ⟨true, true, true, [0], [0], true⟩)) = false := by
  refine ⟨rfl, rfl, rfl⟩

/-- Claim C9 (amended): `close()` is idempotent and total (it never raises:
every internal unbind/remove error is caught), and after each call the
renderer handle and camera binding are released, scene content and render
product paths are cleared and the scene is no longer marked initialized —
but the object binding is left exactly as it was, so the full
bindings-released Closed state of the claim is reached only when no object
binding was held. -/
theorem close_idempotent (s : OvrtxResources) :
    ovrtxClose (ovrtxClose s) = ovrtxClose s ∧
    (ovrtxClose s).rendererHandle = false ∧
    (ovrtxClose s).cameraBinding = false ∧
    (ovrtxClose s).usdHandles = [] ∧
    (ovrtxClose s).renderProductPaths = [] ∧
    (ovrtxClose s).sceneReady = false ∧
    (ovrtxClose s).objectBinding = s.objectBinding ∧
    (isClosedSpec (ovrtxClose s) = !s.objectBinding) := by
  refine ⟨rfl, rfl, rfl, rfl, rfl, rfl, rfl, ?_⟩
  simp [isClosedSpec, ovrtxClose]

/-! ## Newton camera-ray caching (`NewtonWarpRenderer.render`) -/

/-- Inputs of one `render()` call on the Newton backend: camera positions,
orientations and intrinsic matrices, each carried as its flat list of float
payloads (modelled over `ℚ`). -/
structure NewtonCall where
  positions : List ℚ
  orientations : List ℚ
  intrinsics : List ℚ

/-- State of `NewtonWarpRenderer` across `render()` calls: the cached
`self._camera_rays` (set to `None` by `initialize`, line 163) and the frame
counter. -/
structure NewtonRState where
  cameraRays : Option (List ℚ)
  frameCounter : Nat

/-- Arguments handed to the external `self._tiled_camera_sensor.render`
(`newton_warp_renderer.py` lines 305-311): the camera transforms (built by
`_create_camera_transforms_kernel` as the pair of positions and
orientations, line 38) and the camera rays. -/
structure SensorInputs where
  transforms : List ℚ × List ℚ
  rays : List ℚ

/-- One `NewtonWarpRenderer.render` call (`newton_warp_renderer.py`
lines 258-311), abstracted over the external ray construction
`raysOf` (the composite `set_camera_rays_from_intrinsics`, lines 168-191:
extract `f_y`, compute the FOV, call `compute_pinhole_camera_rays`): the
frame counter is incremented; if `self._camera_rays is None` the rays are
computed from this call's intrinsics and cached, otherwise the cache is used
and the intrinsics argument is never read; the sensor receives the
transforms and the (now cached) rays. -/
def newtonRenderStep (raysOf : List ℚ → List ℚ) (st : NewtonRState)
    (c : NewtonCall) : NewtonRState × SensorInputs :=
  let rays := match st.cameraRays with
    | some r => r
    | none => raysOf c.intrinsics
  (⟨some rays, st.frameCounter + 1⟩, ⟨(c.positions, c.orientations), rays⟩)

/-- Replay of a sequence of `render()` calls, collecting the inputs handed to
the external sensor at each frame. -/
def runNewton (raysOf : List ℚ → List ℚ) (st : NewtonRState) :
    List NewtonCall → NewtonRState × List SensorInputs
  | [] => (st, [])
  | c :: rest =>
      let p := newtonRenderStep raysOf st c
      let q := runNewton raysOf p.1 rest
      (q.1, p.2 :: q.2)

/-- State of the Newton renderer right after `initialize()`:
`self._camera_rays = None`. -/
def newtonReadyState : NewtonRState := ⟨none, 0⟩

theorem runNewton_rays_cached (raysOf : List ℚ → List ℚ) (r : List ℚ) :
    ∀ (calls1 calls2 : List NewtonCall) (st : NewtonRState),
      st.cameraRays = some r →
      calls1.map (fun c => (c.positions, c.orientations)) =
        calls2.map (fun c => (c.positions, c.orientations)) →
      runNewton raysOf st calls1 = runNewton raysOf st calls2 := by
  intro calls1
  induction calls1 with
  | nil =>
      intro calls2 st hr hmap
      cases calls2 with
      | nil => rfl
      | cons c t => simp at hmap
  | cons c1 t1 ih =>
      intro calls2 st hr hmap
      cases calls2 with
      | nil => simp at hmap
      | cons c2 t2 =>
          simp only [List.map_cons, List.cons.injEq] at hmap
          obtain ⟨hpo, htail⟩ := hmap
          have hstep : newtonRenderStep raysOf st c1 = newtonRenderStep raysOf st c2 := by
            simp [newtonRenderStep, hr]
            obtain ⟨hp, ho⟩ := Prod.mk.injEq .. ▸ hpo
            exact ⟨hp, ho⟩
          have hrays : (newtonRenderStep raysOf st c1).1.cameraRays = some r := by
            simp [newtonRenderStep, hr]
          simp only [runNewton]
          rw [hstep]
          rw [ih t2 (newtonRenderStep raysOf st c2).1 (hstep ▸ hrays) htail]

/-- Claim C10: on the Newton backend the camera rays are derived from the
intrinsics only on the first `render()` call; afterwards the cached rays are
used, so two call sequences that agree on the first call and on all later
positions and orientations — but pass arbitrary different intrinsics after
the first frame — hand the external sensor identical inputs at every frame. -/
theorem newton_intrinsics_only_first_call (raysOf : List ℚ → List ℚ)
    (c0 : NewtonCall) (calls1 calls2 : List NewtonCall)
    (hmap : calls1.map (fun c => (c.positions, c.orientations)) =
      calls2.map (fun c => (c.positions, c.orientations))) :
    (runNewton raysOf newtonReadyState (c0 :: calls1)).2 =
      (runNewton raysOf newtonReadyState (c0 :: calls2)).2 := by
  simp only [runNewton]
  have hrays : (newtonRenderStep raysOf newtonReadyState c0).1.cameraRays =
      some (raysOf c0.intrinsics) := by
    simp [newtonRenderStep, newtonReadyState]
  rw [runNewton_rays_cached raysOf (raysOf c0.intrinsics) calls1 calls2
    (newtonRenderStep raysOf newtonReadyState c0).1 hrays hmap]

/-- Witness for Claim C10: one follow-up call per sequence, same pose, the
intrinsics differing (5 versus 9) — the sensor input streams coincide. -/
theorem newton_intrinsics_only_first_call_witness :
    [(⟨[0], [0], [5]⟩ : NewtonCall)].map (fun c => (c.positions, c.orientations)) =
      [(⟨[0], [0], [9]⟩ : NewtonCall)].map (fun c => (c.positions, c.orientations)) ∧
    (runNewton id newtonReadyState
        [⟨[1], [2], [3]⟩, ⟨[0], [0], [5]⟩]).2 =
      (runNewton id newtonReadyState
        [⟨[1], [2], [3]⟩, ⟨[0], [0], [9]⟩]).2 :=
  ⟨by decide,
    newton_intrinsics_only_first_call id ⟨[1], [2], [3]⟩
      [⟨[0], [0], [5]⟩] [⟨[0], [0], [9]⟩] (by decide)⟩
